import Mathlib

/-!
Verification of the rice-monitor backend (Go) against its specification.

The development shallowly embeds the parts of the code that the claims
touch:

* `src/backend/models/models.go` — the data model (`Submission`,
  `PlantConditions`, `TraitMeasurements`, `Location`, `User`,
  request DTOs).  Go `float64` fields are embedded as `ℚ` (the exact
  value held by the float), `int` as `ℤ`, `map[string]bool` as an
  association list recording the map's iteration order, and
  `time.Time` as a UTC whole-second calendar record `GoTime`.
* `src/unnamed/part_000` (services/google_sheets.go) — the row codec
  `submissionToRow`, `mapToString`, the header writer `ensureHeaders`,
  and the append/update sync operations.  A spreadsheet's cell grid is
  a `List (List String)`; the Sheets `Values.Get`/`Update`/`Append`
  calls are embedded as pure grid transformations.
* `src/backend/handlers/media.go` — the submission CRUD handlers and
  the media-upload handler.  The document store is an association list
  keyed by document id; external-call failures (store writes, object
  storage) are oracles passed as `Bool` parameters; gin's
  `binding:"required"` validation is the zero-value check it performs.
-/

namespace RiceMonitor

/-- UTC whole-second instant, embedding Go `time.Time` restricted to the
UTC location and zero nanoseconds (all times in this backend come from
`time.Now()` or JSON timestamps and are only compared and formatted). -/
structure GoTime where
  year : Nat
  month : Nat
  day : Nat
  hour : Nat
  minute : Nat
  second : Nat
deriving DecidableEq, Repr

/-- Go's zero `time.Time`: January 1, year 1, 00:00:00 UTC. -/
def GoTime.goZero : GoTime := ⟨1, 1, 1, 0, 0, 0⟩

/-- `models.Location`: GPS coordinates (Go `float64` embedded as `ℚ`). -/
structure Location where
  latitude : ℚ
  longitude : ℚ
deriving DecidableEq, Repr

/-- `models.TraitMeasurements`. -/
structure TraitMeasurements where
  culm_length : ℚ
  panicle_length : ℚ
  panicles_per_hill : ℤ
  hills_observed : ℤ
deriving DecidableEq, Repr

/-- `models.PlantConditions`.  The three `map[string]bool` fields are
association lists recording the (unordered, run-dependent) iteration
order the Go runtime would produce. -/
structure PlantConditions where
  healthy : Bool
  unhealthy : Bool
  signs_of_pest_infestation : Bool
  pest_details : List (String × Bool)
  other_pest : String
  signs_of_nutrient_deficiency : Bool
  nutrient_deficiency_details : List (String × Bool)
  other_nutrient : String
  water_stress : Bool
  water_stress_level : String
  lodging : Bool
  lodging_level : String
  weed_infestation : Bool
  weed_infestation_level : String
  disease_symptoms : Bool
  disease_details : List (String × Bool)
  other_disease : String
  other : Bool
  other_condition_text : String
deriving DecidableEq, Repr

/-- `models.Submission`. -/
structure Submission where
  id : String
  user_id : String
  field_id : String
  other_field_name : String
  coordinates : Location
  date : GoTime
  growth_stage : String
  plant_conditions : PlantConditions
  trait_measurements : TraitMeasurements
  notes : String
  observer_name : String
  images : List String
  videos : List String
  audio : List String
  status : String
  created_at : GoTime
  updated_at : GoTime
deriving DecidableEq, Repr

/-- `models.User` (the fields the handlers consult). -/
structure User where
  id : String
  email : String
  name : String
  picture : String
  role : String
deriving DecidableEq, Repr

/-! ## Formatting primitives used by the row codec -/

/-- Left-pad a string with `'0'` up to width `w` (never truncates). -/
def zeroPad (w : Nat) (s : String) : String :=
  String.mk (List.replicate (w - s.length) '0') ++ s

/-- Go `time.Time.Format(time.RFC3339)` for a UTC whole-second time:
`YYYY-MM-DDTHH:MM:SSZ` with zero-padded components. -/
def formatRFC3339 (t : GoTime) : String :=
  zeroPad 4 (toString t.year) ++ "-" ++ zeroPad 2 (toString t.month) ++ "-" ++
    zeroPad 2 (toString t.day) ++ "T" ++ zeroPad 2 (toString t.hour) ++ ":" ++
    zeroPad 2 (toString t.minute) ++ ":" ++ zeroPad 2 (toString t.second) ++ "Z"

/-- Go `fmt.Sprintf("%t", b)`. -/
def goFormatBool (b : Bool) : String :=
  if b then "true" else "false"

/-- Go `fmt.Sprintf("%d", n)` on an `int`. -/
def goFormatInt (n : ℤ) : String :=
  toString n

/-- Round a rational to the nearest integer, ties to even — the decimal
rounding Go's `strconv` fixed-precision formatter performs. -/
def roundHalfEven (q : ℚ) : ℤ :=
  let n := ⌊q⌋
  let frac := q - (n : ℚ)
  if frac < 1 / 2 then n
  else if 1 / 2 < frac then n + 1
  else if n % 2 = 0 then n else n + 1

/-- Go `fmt.Sprintf("%f", x)` on a `float64` whose exact value is `q`:
fixed-point notation with exactly six digits after the decimal point,
the value rounded to the nearest millionth (ties to even).  The sign is
the float's sign (in `ℚ`, negative values; `ℚ` has no negative zero). -/
def goFormatFloat (q : ℚ) : String :=
  let sign := if q < 0 then "-" else ""
  let n := (roundHalfEven (|q| * 1000000)).toNat
  sign ++ toString (n / 1000000) ++ "." ++ zeroPad 6 (toString (n % 1000000))

/-- `mapToString` (src/unnamed/part_000 lines 236–244): joins with
`", "` the keys whose value is `true`, in iteration order. -/
def mapToString (m : List (String × Bool)) : String :=
  String.intercalate ", " ((m.filter (fun kv => kv.2)).map (fun kv => kv.1))

/-! ## The spreadsheet row codec -/

/-- `submissionToRow` (src/unnamed/part_000 lines 192–234): the ordered
cells written for one submission. -/
def submissionToRow (submission : Submission) (fieldName : String) : List String :=
  [ submission.id,
    submission.user_id,
    submission.field_id,
    fieldName,
    formatRFC3339 submission.date,
    submission.growth_stage,
    submission.notes,
    submission.observer_name,
    submission.status,
    formatRFC3339 submission.created_at,
    formatRFC3339 submission.updated_at,
    goFormatFloat submission.coordinates.latitude,
    goFormatFloat submission.coordinates.longitude,
    goFormatFloat submission.trait_measurements.culm_length,
    goFormatFloat submission.trait_measurements.panicle_length,
    goFormatInt submission.trait_measurements.panicles_per_hill,
    goFormatInt submission.trait_measurements.hills_observed,
    goFormatBool submission.plant_conditions.healthy,
    goFormatBool submission.plant_conditions.unhealthy,
    goFormatBool submission.plant_conditions.signs_of_pest_infestation,
    mapToString submission.plant_conditions.pest_details,
    submission.plant_conditions.other_pest,
    goFormatBool submission.plant_conditions.signs_of_nutrient_deficiency,
    mapToString submission.plant_conditions.nutrient_deficiency_details,
    submission.plant_conditions.other_nutrient,
    goFormatBool submission.plant_conditions.water_stress,
    submission.plant_conditions.water_stress_level,
    goFormatBool submission.plant_conditions.lodging,
    submission.plant_conditions.lodging_level,
    goFormatBool submission.plant_conditions.weed_infestation,
    submission.plant_conditions.weed_infestation_level,
    goFormatBool submission.plant_conditions.disease_symptoms,
    mapToString submission.plant_conditions.disease_details,
    submission.plant_conditions.other_disease,
    goFormatBool submission.plant_conditions.other,
    submission.plant_conditions.other_condition_text,
    String.intercalate "," submission.images,
    String.intercalate "," submission.videos,
    String.intercalate "," submission.audio ]

/-- The header row `ensureHeaders` writes (src/unnamed/part_000 lines
89–100). -/
def sheetHeaders : List String :=
  [ "ID", "UserID", "FieldID", "FieldName", "Date", "GrowthStage",
    "Notes", "ObserverName", "Status", "CreatedAt", "UpdatedAt",
    "Latitude", "Longitude",
    "CulmLength", "PanicleLength", "PaniclesPerHill", "HillsObserved",
    "Healthy", "Unhealthy", "SignsOfPestInfestation", "PestDetails", "OtherPest",
    "SignsOfNutrientDeficiency", "NutrientDeficiencyDetails", "OtherNutrient",
    "WaterStress", "WaterStressLevel", "Lodging", "LodgingLevel",
    "WeedInfestation", "WeedInfestationLevel", "DiseaseSymptoms", "DiseaseDetails", "OtherDisease",
    "Other", "OtherConditionText",
    "Images", "Videos", "Audio" ]

/-- The header row the CSV export writes (src/backend/handlers/media.go
lines 795–806, `ExportSubmissions`). -/
def csvExportHeader : List String :=
  [ "ID", "UserID", "FieldID", "FieldName", "Date", "GrowthStage",
    "Notes", "ObserverName", "Status", "CreatedAt", "UpdatedAt",
    "Latitude", "Longitude",
    "CulmLength", "PanicleLength", "PaniclesPerHill", "HillsObserved",
    "Healthy", "Unhealthy", "SignsOfPestInfestation", "PestDetails", "OtherPest",
    "SignsOfNutrientDeficiency", "NutrientDeficiencyDetails", "OtherNutrient",
    "WaterStress", "WaterStressLevel", "Lodging", "LodgingLevel",
    "WeedInfestation", "WeedInfestationLevel", "DiseaseSymptoms", "DiseaseDetails", "OtherDisease",
    "Other", "OtherConditionText",
    "Images", "Videos", "Audio" ]

/-! ## Spreadsheet grid model

A spreadsheet's cell grid is a list of rows of string cells.  The Sheets
API calls used by the sync engine become pure grid transformations:
`Values.Append` on range `A:A` appends a row after the table,
`Values.Update` on range `A<i+1>` overwrites the written cells of row
`i` in place (padding the grid when the row does not exist yet), and
`Values.Get` on `A:A` observes the first cell of every row. -/

abbrev Grid := List (List String)

/-- The Go scan condition `len(row) > 0 && row[0] == submission.ID`. -/
def rowMatches (row : List String) (id : String) : Bool :=
  match row with
  | [] => false
  | c :: _ => c = id

/-- The linear scan of `UpdateSubmission` (src/unnamed/part_000 lines
152–158): index of the first row whose first cell is `id`. -/
def findRowIndex (rows : Grid) (id : String) : Option Nat :=
  match rows with
  | [] => none
  | row :: rest =>
    if rowMatches row id then some 0
    else (findRowIndex rest id).map (fun i => i + 1)

/-- Sheets `Values.Update` at range `A<i+1>` with one row of values:
overwrites the first `row.length` cells of row `i`, keeping any cells of
that row beyond them; writing past the current last row extends the
grid. -/
def writeRange (rows : Grid) (i : Nat) (row : List String) : Grid :=
  if i < rows.length then
    rows.set i (row ++ (rows.getD i []).drop row.length)
  else
    rows ++ List.replicate (i - rows.length) [] ++ [row]

/-- Sheets `Values.Append` (`appendRow`, src/unnamed/part_000 lines
182–190): adds the row after the table. -/
def appendRow (rows : Grid) (row : List String) : Grid :=
  rows ++ [row]

/-- The emptiness test of `ensureHeaders` (src/unnamed/part_000 line
88): `len(resp.Values) == 0 || len(resp.Values[0]) == 0 ||
resp.Values[0][0] == ""`, reading range `A1:A1`. -/
def a1IsEmpty (rows : Grid) : Bool :=
  match rows with
  | [] => true
  | row :: _ =>
    match row with
    | [] => true
    | c :: _ => c = ""

/-- `ensureHeaders` (src/unnamed/part_000 lines 81–114): writes the
header row at `A1` when cell `A1` is empty, otherwise leaves the sheet
alone. -/
def ensureHeaders (rows : Grid) : Grid :=
  if a1IsEmpty rows then writeRange rows 0 sheetHeaders else rows

/-- The per-sheet body of `AppendSubmission` (src/unnamed/part_000
lines 116–136): append the encoded row. -/
def appendSubmissionToSheet (rows : Grid) (submission : Submission) (fieldName : String) : Grid :=
  appendRow rows (submissionToRow submission fieldName)

/-- The per-sheet body of `UpdateSubmission` (src/unnamed/part_000
lines 144–178): scan column A for the submission id; overwrite the row
in place when found, append otherwise. -/
def updateSubmissionInSheet (rows : Grid) (submission : Submission) (fieldName : String) : Grid :=
  match findRowIndex rows submission.id with
  | none => appendRow rows (submissionToRow submission fieldName)
  | some i => writeRange rows i (submissionToRow submission fieldName)

/-- `models.Sheet`: one registered spreadsheet. -/
structure Sheet where
  spreadsheet_id : String
  spreadsheet_name : String
deriving DecidableEq, Repr

/-- The registered spreadsheets (from the sheets collection) together
with each one's current grid. -/
abbrev SheetsState := List (Sheet × Grid)

/-- `AppendSubmission` over every registered spreadsheet. -/
def gsAppendSubmission (state : SheetsState) (submission : Submission) (fieldName : String) : SheetsState :=
  state.map (fun p => (p.1, appendSubmissionToSheet p.2 submission fieldName))

/-- `UpdateSubmission` over every registered spreadsheet. -/
def gsUpdateSubmission (state : SheetsState) (submission : Submission) (fieldName : String) : SheetsState :=
  state.map (fun p => (p.1, updateSubmissionInSheet p.2 submission fieldName))

/-- Number of rows whose column-A cell equals `id`. -/
def countMatching (rows : Grid) (id : String) : Nat :=
  (rows.filter (fun row => rowMatches row id)).length

/-! ## Document store and CRUD handlers
(src/backend/handlers/media.go, src/backend/models/models.go)

External network effects are embedded explicitly: the Firestore
submissions collection is an association list keyed by document id, and
failures of the store's own write calls are oracle `Bool` parameters
(`storeOk`).  gin's `ShouldBindJSON` on a structurally valid JSON body
succeeds; its `binding:"required"` tags reject a field holding its zero
value, which is the only payload validation the handlers perform. -/

/-- `models.Field`. -/
structure Field where
  id : String
  name : String
  location : String
  coordinates : Location
  area : ℚ
  rice_variety : String
  tentative_date : String
  owner_id : String
  created_at : GoTime
  updated_at : GoTime
deriving DecidableEq, Repr

/-- The zero `models.Field` (Go composite-literal defaults). -/
def emptyField : Field :=
  ⟨"", "", "", ⟨0, 0⟩, 0, "", "", "", GoTime.goZero, GoTime.goZero⟩

/-- `models.SubmissionResponse`: the body `GetSubmission` returns — the
submission's fields copied verbatim plus the resolved field. -/
structure SubmissionResponse where
  id : String
  user_id : String
  field_id : String
  field : Option Field
  other_field_name : String
  date : GoTime
  growth_stage : String
  plant_conditions : PlantConditions
  trait_measurements : TraitMeasurements
  notes : String
  observer_name : String
  images : List String
  videos : List String
  audio : List String
  status : String
  coordinates : Location
  created_at : GoTime
  updated_at : GoTime
deriving DecidableEq, Repr

/-- `models.CreateSubmissionRequest` as decoded from a structurally
valid JSON body (absent optional fields decode to their zero values). -/
structure CreateSubmissionRequest where
  field_id : String
  other_field_name : String
  date : GoTime
  growth_stage : String
  plant_conditions : PlantConditions
  trait_measurements : TraitMeasurements
  coordinates : Location
  notes : String
  observer_name : String
  images : List String
  videos : List String
  audio : List String
deriving DecidableEq, Repr

/-- `models.UpdateSubmissionRequest`: every field optional; `none`
embeds a `nil` pointer/slice (field absent from the JSON payload). -/
structure UpdateSubmissionRequest where
  field_id : Option String
  other_field_name : Option String
  date : Option GoTime
  growth_stage : Option String
  plant_conditions : Option PlantConditions
  trait_measurements : Option TraitMeasurements
  coordinates : Option Location
  notes : Option String
  images : Option (List String)
  videos : Option (List String)
  audio : Option (List String)
  status : Option String
deriving DecidableEq, Repr

/-- An HTTP handler outcome: a success JSON (`models.SuccessResponse`
with `status`) or an error JSON (`models.ErrorResponse`). -/
inductive ApiResult (α : Type) where
  | ok (status : Nat) (body : α)
  | err (status : Nat) (error : String) (message : String)
deriving DecidableEq, Repr

/-- The submissions collection: document id ↦ submission. -/
abbrev SubmissionStore := List (String × Submission)

/-- The fields collection: document id ↦ field. -/
abbrev FieldStore := List (String × Field)

/-- `Submissions().Doc(id).Get`: `none` embeds the not-found error. -/
def storeGet (st : SubmissionStore) (id : String) : Option Submission :=
  (st.find? (fun p => p.1 = id)).map (fun p => p.2)

/-- `Submissions().Doc(id).Set` / the applied `Update`: overwrite the
document, creating it when absent. -/
def storeSet (st : SubmissionStore) (id : String) (s : Submission) : SubmissionStore :=
  if (st.find? (fun p => p.1 = id)).isSome then
    st.map (fun p => if p.1 = id then (id, s) else p)
  else
    st ++ [(id, s)]

/-- `Submissions().Doc(id).Delete`. -/
def storeDelete (st : SubmissionStore) (id : String) : SubmissionStore :=
  st.filter (fun p => p.1 ≠ id)

/-- `Fields().Doc(id).Get`. -/
def fieldsGet (fields : FieldStore) (id : String) : Option Field :=
  (fields.find? (fun p => p.1 = id)).map (fun p => p.2)

/-- gin `binding:"required"` on `CreateSubmissionRequest`: `date`,
`growth_stage`, `observer_name` must not hold their zero values. -/
def bindCreateRequired (req : CreateSubmissionRequest) : Bool :=
  req.date ≠ GoTime.goZero ∧ req.growth_stage ≠ "" ∧ req.observer_name ≠ ""

/-- The submission document `CreateSubmission` constructs (media.go
lines 418–436). -/
def mkCreatedSubmission (req : CreateSubmissionRequest) (user : User) (newID : String)
    (now : GoTime) : Submission :=
  { id := newID
    user_id := user.id
    field_id := req.field_id
    other_field_name := req.other_field_name
    date := req.date
    growth_stage := req.growth_stage
    plant_conditions := req.plant_conditions
    trait_measurements := req.trait_measurements
    coordinates := req.coordinates
    notes := req.notes
    observer_name := req.observer_name
    images := req.images
    videos := req.videos
    audio := req.audio
    status := "submitted"
    created_at := now
    updated_at := now }

/-- `SubmissionHandler.CreateSubmission` (media.go lines 380–478).
`newID` is the `utils.GenerateID()` result (a fresh UUID string); `now`
is `time.Now()`; `storeOk` is the Firestore `Set` oracle.  The
fire-and-forget sheets append does not affect the response or the
store. -/
def createSubmission (st : SubmissionStore) (req : CreateSubmissionRequest) (user : User)
    (newID : String) (now : GoTime) (storeOk : Bool) :
    SubmissionStore × ApiResult Submission :=
  if ¬bindCreateRequired req then
    (st, .err 400 "invalid_request" "binding failed")
  else
    let submission := mkCreatedSubmission req user newID now
    if ¬storeOk then
      (st, .err 500 "internal_error" "Failed to create submission")
    else
      (storeSet st newID submission, .ok 201 submission)

/-- The `SubmissionResponse` `GetSubmission` builds (media.go lines
542–561). -/
def mkSubmissionResponse (submission : Submission) (field : Option Field) : SubmissionResponse :=
  { id := submission.id
    user_id := submission.user_id
    field_id := submission.field_id
    field := field
    other_field_name := submission.other_field_name
    date := submission.date
    growth_stage := submission.growth_stage
    plant_conditions := submission.plant_conditions
    trait_measurements := submission.trait_measurements
    notes := submission.notes
    observer_name := submission.observer_name
    images := submission.images
    videos := submission.videos
    audio := submission.audio
    status := submission.status
    coordinates := submission.coordinates
    created_at := submission.created_at
    updated_at := submission.updated_at }

/-- `SubmissionHandler.GetSubmission` (media.go lines 490–567): 404
when absent, 403 for a non-admin non-owner, 500 when the referenced
field document cannot be fetched, otherwise 200 with the response. -/
def getSubmission (st : SubmissionStore) (fields : FieldStore) (submissionID : String)
    (user : User) : ApiResult SubmissionResponse :=
  match storeGet st submissionID with
  | none => .err 404 "not_found" "Submission not found"
  | some submission =>
    if user.role ≠ "admin" ∧ submission.user_id ≠ user.id then
      .err 403 "forbidden" "Access denied"
    else if submission.field_id ≠ "others" ∧ submission.field_id ≠ "" then
      match fieldsGet fields submission.field_id with
      | none => .err 500 "internal_error" "Failed to retrieve associated field data"
      | some f => .ok 200 (mkSubmissionResponse submission (some f))
    else if submission.other_field_name ≠ "" then
      .ok 200 (mkSubmissionResponse submission
        (some { emptyField with id := "others", name := submission.other_field_name }))
    else
      .ok 200 (mkSubmissionResponse submission none)

/-- The Firestore update list built by `SubmissionHandler.UpdateSubmission`
(media.go lines 621–660), applied to the stored document: each field
present in the payload overwrites the stored one, `other_field_name`
additionally forces `field_id` to the sentinel `"others"` (the payload's
`field_id` is consulted only when `other_field_name` is absent), and
`updated_at` is always stamped to `time.Now()`. -/
def applyUpdateRequest (s : Submission) (req : UpdateSubmissionRequest) (now : GoTime) :
    Submission :=
  { s with
    date := req.date.getD s.date
    growth_stage := req.growth_stage.getD s.growth_stage
    plant_conditions := req.plant_conditions.getD s.plant_conditions
    trait_measurements := req.trait_measurements.getD s.trait_measurements
    coordinates := req.coordinates.getD s.coordinates
    notes := req.notes.getD s.notes
    images := req.images.getD s.images
    videos := req.videos.getD s.videos
    audio := req.audio.getD s.audio
    status := req.status.getD s.status
    other_field_name := req.other_field_name.getD s.other_field_name
    field_id :=
      match req.other_field_name with
      | some _ => "others"
      | none => req.field_id.getD s.field_id
    updated_at := now }

/-- `SubmissionHandler.UpdateSubmission` (media.go lines 583–711): 404
when absent, 403 for a non-admin non-owner, 500 when the store write
fails, otherwise persist the applied updates and return the updated
document.  The fire-and-forget sheets update does not affect the
response or the store. -/
def updateSubmissionHandler (st : SubmissionStore) (submissionID : String) (user : User)
    (req : UpdateSubmissionRequest) (now : GoTime) (storeOk : Bool) :
    SubmissionStore × ApiResult Submission :=
  match storeGet st submissionID with
  | none => (st, .err 404 "not_found" "Submission not found")
  | some submission =>
    if user.role ≠ "admin" ∧ submission.user_id ≠ user.id then
      (st, .err 403 "forbidden" "Access denied")
    else if ¬storeOk then
      (st, .err 500 "internal_error" "Failed to update submission")
    else
      let updated := applyUpdateRequest submission req now
      (storeSet st submissionID updated, .ok 200 updated)

/-- `SubmissionHandler.DeleteSubmission` (media.go lines 724–767). -/
def deleteSubmission (st : SubmissionStore) (submissionID : String) (user : User)
    (storeOk : Bool) : SubmissionStore × ApiResult Unit :=
  match storeGet st submissionID with
  | none => (st, .err 404 "not_found" "Submission not found")
  | some submission =>
    if user.role ≠ "admin" ∧ submission.user_id ≠ user.id then
      (st, .err 403 "forbidden" "Access denied")
    else if ¬storeOk then
      (st, .err 500 "internal_error" "Failed to delete submission")
    else
      (storeDelete st submissionID, .ok 200 ())

/-! ## Media upload handler (media.go lines 45–146) -/

/-- Go `filepath.Ext`: the suffix beginning at the final dot, `""` when
there is no dot (upload filenames carry no path separators). -/
def goFilepathExt (s : String) : String :=
  let rev := s.toList.reverse
  if rev.contains '.' then String.mk ('.' :: (rev.takeWhile (fun c => c ≠ '.')).reverse)
  else ""

/-- Go `strings.ToLower` on an (ASCII) extension string, character by
character. -/
def goToLower (s : String) : String :=
  String.mk (s.toList.map Char.toLower)

/-- `utils.IsImageFile`. -/
def isImageFile (filename : String) : Bool :=
  [".jpg", ".jpeg", ".png", ".webp"].contains (goToLower (goFilepathExt filename))

/-- `utils.IsVideoFile`. -/
def isVideoFile (filename : String) : Bool :=
  [".mp4", ".mov", ".webm"].contains (goToLower (goFilepathExt filename))

/-- `utils.IsAudioFile`. -/
def isAudioFile (filename : String) : Bool :=
  [".mp3", ".wav", ".ogg", ".webm"].contains (goToLower (goFilepathExt filename))

/-- `utils.ValidateMediaType`. -/
def validateMediaType (filename fileType : String) : Bool :=
  if fileType = "image" then isImageFile filename
  else if fileType = "video" then isVideoFile filename
  else if fileType = "audio" then isAudioFile filename
  else false

/-- Outcome of `MediaHandler.UploadMedia`: a JSON response, or a Go
runtime panic aborting the handler. -/
inductive UploadOutcome where
  | response (status : Nat) (error : String)
  | runtimePanic
  | success
deriving DecidableEq, Repr

/-- `MediaHandler.UploadMedia` (media.go lines 45–146).  `fileOk`:
`FormFile` succeeded; `copyOk`/`closeOk`: the object-storage write;
`attachOk`: the `addMediaToSubmission` transaction.  At line 126 the
guard `submissionID != "" && submissionID[:5] != "temp_"` slices the
(at that point necessarily non-empty) id: Go string slicing panics when
the string is shorter than 5 bytes. -/
def uploadMedia (submissionID fileType filename : String)
    (fileOk copyOk closeOk attachOk : Bool) : UploadOutcome :=
  if submissionID = "" then .response 400 "invalid_request"
  else if fileType = "" then .response 400 "invalid_request"
  else if ¬fileOk then .response 400 "invalid_request"
  else if ¬validateMediaType filename fileType then .response 400 "invalid_file_type"
  else if ¬copyOk then .response 500 "upload_failed"
  else if ¬closeOk then .response 500 "upload_failed"
  else if submissionID.length < 5 then .runtimePanic
  else if submissionID.take 5 ≠ "temp_" then
    if ¬attachOk then .response 500 "internal_error" else .success
  else .success

/-- The value the `ensureHeaders` emptiness test observes: cell `A1`
(empty string when the cell or the row is absent). -/
def cellA1 (rows : Grid) : String :=
  (rows.headD []).headD ""

/-! ## Concrete sample data (used by witness theorems) -/

/-- A concrete `map[string]bool` in some iteration order. -/
def samplePestDetails : List (String × Bool) :=
  [("stem borer", true), ("rat", false), ("leaf folder", true)]

/-- A concrete `PlantConditions` value. -/
def samplePlantConditions : PlantConditions :=
  { healthy := true
    unhealthy := false
    signs_of_pest_infestation := true
    pest_details := samplePestDetails
    other_pest := ""
    signs_of_nutrient_deficiency := false
    nutrient_deficiency_details := []
    other_nutrient := ""
    water_stress := false
    water_stress_level := ""
    lodging := false
    lodging_level := ""
    weed_infestation := false
    weed_infestation_level := ""
    disease_symptoms := false
    disease_details := []
    other_disease := ""
    other := false
    other_condition_text := "" }

/-- A concrete `TraitMeasurements` value; `culm_length` is the exact
float64 value 1.0. -/
def sampleTraits : TraitMeasurements :=
  { culm_length := 1
    panicle_length := 25 / 2
    panicles_per_hill := 8
    hills_observed := 10 }

/-- A concrete observation date. -/
def sampleDate : GoTime := ⟨2024, 3, 1, 0, 0, 0⟩

/-- A concrete server clock reading. -/
def sampleNow : GoTime := ⟨2024, 3, 1, 10, 30, 0⟩

/-- A concrete submission. -/
def sampleSubmission : Submission :=
  { id := "s1"
    user_id := "u1"
    field_id := "f1"
    other_field_name := ""
    coordinates := ⟨10, 90⟩
    date := sampleDate
    growth_stage := "Tillering"
    plant_conditions := samplePlantConditions
    trait_measurements := sampleTraits
    notes := ""
    observer_name := "Alice"
    images := []
    videos := []
    audio := []
    status := "submitted"
    created_at := sampleNow
    updated_at := sampleNow }

/-- `sampleSubmission` with `culm_length` nudged by `2 ^ (-21)` — a
distinct float64 value closer than half a millionth. -/
def sampleSubmissionNudged : Submission :=
  { sampleSubmission with
    trait_measurements := { sampleTraits with culm_length := 1 + 1 / 2 ^ 21 } }

/-- The submission's owner. -/
def sampleUser : User :=
  { id := "u1", email := "alice at example", name := "Alice", picture := "", role := "observer" }

/-- A different, non-admin user. -/
def otherUser : User :=
  { id := "u2", email := "bob at example", name := "Bob", picture := "", role := "observer" }

/-- A concrete valid create payload (no linked field). -/
def sampleCreateRequest : CreateSubmissionRequest :=
  { field_id := ""
    other_field_name := ""
    date := sampleDate
    growth_stage := "Tillering"
    plant_conditions := samplePlantConditions
    trait_measurements := sampleTraits
    coordinates := ⟨10, 90⟩
    notes := ""
    observer_name := "Alice"
    images := []
    videos := []
    audio := [] }

/-- An update payload with every field absent. -/
def emptyUpdateRequest : UpdateSubmissionRequest :=
  { field_id := none
    other_field_name := none
    date := none
    growth_stage := none
    plant_conditions := none
    trait_measurements := none
    coordinates := none
    notes := none
    images := none
    videos := none
    audio := none
    status := none }

/-- An update payload carrying only `other_field_name` — `field_id` is
absent. -/
def otherNameOnlyRequest : UpdateSubmissionRequest :=
  { emptyUpdateRequest with other_field_name := some "My Plot" }

/-- An update payload carrying only `notes`. -/
def notesOnlyRequest : UpdateSubmissionRequest :=
  { emptyUpdateRequest with notes := some "updated note" }

/-- An update payload carrying both `other_field_name` and a
`field_id`. -/
def bothFieldRequest : UpdateSubmissionRequest :=
  { emptyUpdateRequest with other_field_name := some "My Plot", field_id := some "f9" }

end RiceMonitor

namespace RiceMonitor

/-! ## Basic lemmas about the scan and the grid operations -/

theorem findRowIndex_eq_none_iff (rows : Grid) (id : String) :
    findRowIndex rows id = none ↔ ∀ row ∈ rows, rowMatches row id = false := by
  induction rows with
  | nil => simp [findRowIndex]
  | cons row rest ih =>
    by_cases h : rowMatches row id
    · simp [findRowIndex, h]
    · have hf : rowMatches row id = false := Bool.eq_false_iff.mpr h
      rw [show findRowIndex (row :: rest) id = (findRowIndex rest id).map (fun i => i + 1) from by
        simp [findRowIndex, hf]]
      simp [Option.map_eq_none', ih, hf]

theorem findRowIndex_eq_some (rows : Grid) (id : String) (i : Nat)
    (h : findRowIndex rows id = some i) :
    i < rows.length ∧ rowMatches (rows.getD i []) id = true ∧
      ∀ j, j < i → rowMatches (rows.getD j []) id = false := by
  induction rows generalizing i with
  | nil => simp [findRowIndex] at h
  | cons row rest ih =>
    by_cases hm : rowMatches row id
    · have h0 : findRowIndex (row :: rest) id = some 0 := by simp [findRowIndex, hm]
      obtain rfl := Option.some.inj (h0.symm.trans h)
      refine ⟨Nat.succ_pos _, by simpa [List.getD] using hm, ?_⟩
      intro j hj
      exact absurd hj (Nat.not_lt_zero j)
    · have heq : findRowIndex (row :: rest) id = (findRowIndex rest id).map (fun i => i + 1) := by
        simp [findRowIndex, hm]
      rw [heq, Option.map_eq_some'] at h
      obtain ⟨i0, hi0, rfl⟩ := h
      obtain ⟨hlt, hmatch, hbefore⟩ := ih i0 hi0
      refine ⟨Nat.succ_lt_succ hlt, by simpa [List.getD_cons_succ] using hmatch, ?_⟩
      intro j hj
      match j with
      | 0 => simpa [List.getD_cons_zero] using Bool.eq_false_iff.mpr hm
      | j + 1 =>
        simpa [List.getD_cons_succ] using hbefore j (Nat.lt_of_succ_lt_succ hj)

theorem findRowIndex_append_single (rows : Grid) (id : String) (r : List String)
    (hnone : findRowIndex rows id = none) (hr : rowMatches r id = true) :
    findRowIndex (rows ++ [r]) id = some rows.length := by
  induction rows with
  | nil => simp [findRowIndex, hr]
  | cons row rest ih =>
    by_cases hm : rowMatches row id
    · simp [findRowIndex, hm] at hnone
    · have h1 : findRowIndex rest id = none := by
        have h2 := hnone
        simp only [findRowIndex, if_neg hm, Option.map_eq_none'] at h2
        exact h2
      simp only [List.cons_append, findRowIndex, if_neg hm, List.append_eq, ih h1,
        Option.map_some', List.length_cons]

theorem set_append_length {α : Type} (xs : List α) (r v : α) :
    (xs ++ [r]).set xs.length v = xs ++ [v] := by
  induction xs with
  | nil => rfl
  | cons x xs ih => simp [List.set, ih]

theorem getD_append_length {α : Type} (xs : List α) (r d : α) :
    (xs ++ [r]).getD xs.length d = r := by
  induction xs with
  | nil => rfl
  | cons x xs ih =>
    rw [List.cons_append, List.length_cons, List.getD_cons_succ]
    exact ih

theorem countMatching_append (xs ys : Grid) (id : String) :
    countMatching (xs ++ ys) id = countMatching xs id + countMatching ys id := by
  simp [countMatching, List.filter_append]

theorem countMatching_eq_zero_iff (rows : Grid) (id : String) :
    countMatching rows id = 0 ↔ ∀ row ∈ rows, rowMatches row id = false := by
  simp only [countMatching, List.length_eq_zero, List.filter_eq_nil_iff]
  constructor
  · intro h row hr
    exact Bool.eq_false_iff.mpr (h row hr)
  · intro h row hr
    exact Bool.eq_false_iff.mp (h row hr)

theorem roundHalfEven_eq_of_floor (q : ℚ) (z : ℤ) (hle : (z : ℚ) ≤ q)
    (hlt : q < (z : ℚ) + 1 / 2) : roundHalfEven q = z := by
  have hfl : ⌊q⌋ = z := Int.floor_eq_iff.mpr ⟨hle, by linarith⟩
  simp only [roundHalfEven, hfl]
  rw [if_pos (by linarith : q - (z : ℚ) < 1 / 2)]

theorem submissionToRow_head (submission : Submission) (fieldName : String) :
    rowMatches (submissionToRow submission fieldName) submission.id = true := by
  simp [submissionToRow, rowMatches]

theorem submissionToRow_append_head (submission : Submission) (fieldName : String)
    (tail : List String) :
    rowMatches (submissionToRow submission fieldName ++ tail) submission.id = true := by
  simp [submissionToRow, rowMatches]

theorem a1IsEmpty_eq (rows : Grid) :
    a1IsEmpty rows = decide (cellA1 rows = "") := by
  cases rows with
  | nil => rfl
  | cons row rest =>
    cases row with
    | nil => rfl
    | cons c cs => rfl

theorem cellA1_write_headers (rows : Grid) :
    cellA1 (writeRange rows 0 sheetHeaders) = "ID" := by
  cases rows with
  | nil => rfl
  | cons row rest => simp [writeRange, cellA1, sheetHeaders]

theorem storeSet_of_fresh (st : SubmissionStore) (id : String) (s : Submission)
    (h : storeGet st id = none) : storeSet st id s = st ++ [(id, s)] := by
  have hf : st.find? (fun p => p.1 = id) = none := by
    cases hf : st.find? (fun p => p.1 = id) with
    | none => rfl
    | some p => rw [storeGet, hf] at h; simp at h
  simp [storeSet, hf]

theorem storeGet_append_fresh (st : SubmissionStore) (id : String) (s : Submission)
    (h : storeGet st id = none) : storeGet (st ++ [(id, s)]) id = some s := by
  induction st with
  | nil => simp [storeGet, List.find?]
  | cons p rest ih =>
    by_cases hp : p.1 = id
    · rw [storeGet, List.find?_cons_of_pos _ (by simpa using hp)] at h
      simp at h
    · rw [storeGet, List.find?_cons_of_neg _ (by simpa using hp)] at h
      rw [storeGet, List.cons_append, List.find?_cons_of_neg _ (by simpa using hp)]
      exact ih h

/-! ## The claims -/

/-- Counterexample to C1 as stated: the row codec emits 39 cells, not
37 (the claim's own enumerated column list — ID through Audio — has 39
names). -/
theorem rowCodec_arity_counterexample :
    (submissionToRow sampleSubmission "Field A").length = 39 ∧
    (submissionToRow sampleSubmission "Field A").length ≠ 37 ∧
    csvExportHeader.length = 39 := by
  refine ⟨by simp [submissionToRow], ?_, by simp [csvExportHeader]⟩
  have h : (submissionToRow sampleSubmission "Field A").length = 39 := by
    simp [submissionToRow]
  omega

/-- C1 (amended): for every Submission and every field-name string, the
row codec `submissionToRow` returns exactly 39 string cells — not 37 —
in the fixed published column order (ID, UserID, FieldID, FieldName,
Date, GrowthStage, Notes, ObserverName, Status, CreatedAt, UpdatedAt,
Latitude, Longitude, CulmLength, PanicleLength, PaniclesPerHill,
HillsObserved, Healthy, Unhealthy, SignsOfPestInfestation, PestDetails,
OtherPest, SignsOfNutrientDeficiency, NutrientDeficiencyDetails,
OtherNutrient, WaterStress, WaterStressLevel, Lodging, LodgingLevel,
WeedInfestation, WeedInfestationLevel, DiseaseSymptoms, DiseaseDetails,
OtherDisease, Other, OtherConditionText, Images, Videos, Audio), for
any combination of populated/empty optional fields; the CSV export
header row has the same 39 columns. -/
theorem rowCodec_has_39_cells_in_published_order :
    (∀ (s : Submission) (fieldName : String), (submissionToRow s fieldName).length = 39) ∧
    sheetHeaders =
      [ "ID", "UserID", "FieldID", "FieldName", "Date", "GrowthStage",
        "Notes", "ObserverName", "Status", "CreatedAt", "UpdatedAt",
        "Latitude", "Longitude",
        "CulmLength", "PanicleLength", "PaniclesPerHill", "HillsObserved",
        "Healthy", "Unhealthy", "SignsOfPestInfestation", "PestDetails", "OtherPest",
        "SignsOfNutrientDeficiency", "NutrientDeficiencyDetails", "OtherNutrient",
        "WaterStress", "WaterStressLevel", "Lodging", "LodgingLevel",
        "WeedInfestation", "WeedInfestationLevel", "DiseaseSymptoms", "DiseaseDetails",
        "OtherDisease", "Other", "OtherConditionText",
        "Images", "Videos", "Audio" ] ∧
    csvExportHeader = sheetHeaders ∧
    sheetHeaders.length = 39 := by
  refine ⟨fun s fieldName => ?_, rfl, rfl, by simp [sheetHeaders]⟩
  simp [submissionToRow]

/-- C2: for every spreadsheet grid, `UpdateSubmission` scans column A
linearly for the first row whose first cell equals the submission id
(`findRowIndex` is `none` exactly when no row matches, and `some i`
only for the first matching index `i`); when found it overwrites that
row's cells in place at the matching row index, and when the identifier
is absent it falls back to appending a new row — the operation totally
computes a new grid in that case, and does so for every registered
spreadsheet. -/
theorem updateSubmission_scan_overwrite_or_append (rows : Grid) (s : Submission)
    (fieldName : String) :
    (findRowIndex rows s.id = none ↔ ∀ row ∈ rows, rowMatches row s.id = false) ∧
    (findRowIndex rows s.id = none →
      updateSubmissionInSheet rows s fieldName = rows ++ [submissionToRow s fieldName]) ∧
    (∀ i, findRowIndex rows s.id = some i →
      i < rows.length ∧
      rowMatches (rows.getD i []) s.id = true ∧
      (∀ j, j < i → rowMatches (rows.getD j []) s.id = false) ∧
      updateSubmissionInSheet rows s fieldName =
        rows.set i (submissionToRow s fieldName ++ (rows.getD i []).drop 39)) ∧
    (∀ state : SheetsState, gsUpdateSubmission state s fieldName =
      state.map fun p => (p.1, updateSubmissionInSheet p.2 s fieldName)) := by
  refine ⟨findRowIndex_eq_none_iff rows s.id, ?_, ?_, fun state => rfl⟩
  · intro h
    simp [updateSubmissionInSheet, h, appendRow]
  · intro i h
    obtain ⟨hlt, hmatch, hbefore⟩ := findRowIndex_eq_some rows s.id i h
    refine ⟨hlt, hmatch, hbefore, ?_⟩
    simp only [updateSubmissionInSheet, h, writeRange, if_pos hlt]
    rw [show (submissionToRow s fieldName).length = 39 by simp [submissionToRow]]

/-- Witness for C2: on a grid without the id the update appends; on a
grid whose second row carries the id it overwrites that row in
place. -/
theorem updateSubmission_scan_overwrite_or_append_witness :
    updateSubmissionInSheet [["a"], ["b"]] sampleSubmission "Field A" =
      [["a"], ["b"]] ++ [submissionToRow sampleSubmission "Field A"] ∧
    updateSubmissionInSheet [["a"], ["s1", "x", "y"]] sampleSubmission "Field A" =
      ([["a"], ["s1", "x", "y"]] : Grid).set 1
        (submissionToRow sampleSubmission "Field A" ++
          (([["a"], ["s1", "x", "y"]] : Grid).getD 1 []).drop 39) := by
  constructor
  · exact (updateSubmission_scan_overwrite_or_append [["a"], ["b"]] sampleSubmission
      "Field A").2.1 (by decide)
  · exact ((updateSubmission_scan_overwrite_or_append [["a"], ["s1", "x", "y"]] sampleSubmission
      "Field A").2.2.1 1 (by decide)).2.2.2

/-- C3: running `AppendSubmission` and then `UpdateSubmission` with the
same identifier (no concurrent interleaving) on a grid that did not yet
contain the identifier leaves exactly one row whose column-A cell
equals that identifier — in each registered spreadsheet. -/
theorem appendThenUpdate_leaves_one_row (s : Submission) (fn fn2 : String) :
    (∀ rows : Grid, countMatching rows s.id = 0 →
      countMatching (updateSubmissionInSheet (appendSubmissionToSheet rows s fn) s fn2) s.id
        = 1) ∧
    (∀ state : SheetsState, (∀ p ∈ state, countMatching p.2 s.id = 0) →
      ∀ p ∈ gsUpdateSubmission (gsAppendSubmission state s fn) s fn2,
        countMatching p.2 s.id = 1) := by
  have main : ∀ rows : Grid, countMatching rows s.id = 0 →
      countMatching (updateSubmissionInSheet (appendSubmissionToSheet rows s fn) s fn2) s.id
        = 1 := by
    intro rows h
    have hall : ∀ row ∈ rows, rowMatches row s.id = false :=
      (countMatching_eq_zero_iff rows s.id).mp h
    have hnone : findRowIndex rows s.id = none :=
      (findRowIndex_eq_none_iff rows s.id).mpr hall
    have hfind : findRowIndex (rows ++ [submissionToRow s fn]) s.id = some rows.length :=
      findRowIndex_append_single rows s.id _ hnone (submissionToRow_head s fn)
    have hlen : rows.length < (rows ++ [submissionToRow s fn]).length := by simp
    simp only [appendSubmissionToSheet, appendRow, updateSubmissionInSheet, hfind]
    unfold writeRange
    rw [if_pos hlen, getD_append_length, set_append_length, countMatching_append, h]
    simp [countMatching, submissionToRow_append_head]
  refine ⟨main, ?_⟩
  intro state hstate p hp
  simp only [gsUpdateSubmission, gsAppendSubmission, List.map_map, List.mem_map] at hp
  obtain ⟨q, hq, rfl⟩ := hp
  exact main q.2 (hstate q hq)

/-- Witness for C3: appending then updating on an initially empty grid,
and on a one-spreadsheet state, yields exactly one matching row. -/
theorem appendThenUpdate_leaves_one_row_witness :
    countMatching
      (updateSubmissionInSheet (appendSubmissionToSheet [["x"]] sampleSubmission "Field A")
        sampleSubmission "Field B") sampleSubmission.id = 1 ∧
    ∀ p ∈ gsUpdateSubmission
        (gsAppendSubmission [(⟨"sp1", "Sheet1"⟩, ([] : Grid))] sampleSubmission "Field A")
        sampleSubmission "Field B",
      countMatching p.2 sampleSubmission.id = 1 := by
  constructor
  · exact (appendThenUpdate_leaves_one_row sampleSubmission "Field A" "Field B").1
      [["x"]] (by decide)
  · exact (appendThenUpdate_leaves_one_row sampleSubmission "Field A" "Field B").2
      [(⟨"sp1", "Sheet1"⟩, ([] : Grid))] (by intro p hp; simp at hp; rw [hp]; rfl)

/-- C4: `ensureHeaders` is idempotent: it writes the header row only
when cell A1 is empty, so a second call on the same spreadsheet is a
no-op and does not duplicate or alter the header row; after a call on a
sheet whose A1 was empty, cell A1 holds the first column's literal
value `"ID"`. -/
theorem ensureHeaders_idempotent (rows : Grid) :
    ensureHeaders (ensureHeaders rows) = ensureHeaders rows ∧
    (a1IsEmpty rows = false → ensureHeaders rows = rows) ∧
    (a1IsEmpty rows = true → cellA1 (ensureHeaders rows) = "ID") := by
  by_cases h : a1IsEmpty rows
  · have hw : cellA1 (writeRange rows 0 sheetHeaders) = "ID" := cellA1_write_headers rows
    have h2 : a1IsEmpty (writeRange rows 0 sheetHeaders) = false := by
      rw [a1IsEmpty_eq, hw]
      decide
    refine ⟨?_, ?_, ?_⟩
    · simp [ensureHeaders, h, h2]
    · intro hfalse
      rw [h] at hfalse
      exact absurd hfalse (by decide)
    · intro _
      simpa [ensureHeaders, h] using hw
  · have hf : a1IsEmpty rows = false := Bool.eq_false_iff.mpr h
    refine ⟨?_, fun _ => by simp [ensureHeaders, hf], ?_⟩
    · simp [ensureHeaders, hf]
    · intro htrue
      rw [hf] at htrue
      exact absurd htrue (by decide)

/-- Witness for C4: on an initially empty sheet the first call writes
the header, the second call changes nothing, and A1 then holds
`"ID"`. -/
theorem ensureHeaders_idempotent_witness :
    ensureHeaders (ensureHeaders ([] : Grid)) = ensureHeaders ([] : Grid) ∧
    cellA1 (ensureHeaders ([] : Grid)) = "ID" :=
  ⟨(ensureHeaders_idempotent ([] : Grid)).1,
   (ensureHeaders_idempotent ([] : Grid)).2.2 (by decide)⟩

/-- C5: `CreateSubmission` rejects with a 400 validation error any
request missing date, growth-stage, or observer-name; for every valid
create request (with a fresh non-empty generated identifier and a
successful store write) it assigns that identifier, sets status to the
fixed initial value `"submitted"`, stamps created-at and updated-at to
the current time, and responds 201 with a body whose growth_stage and
observer_name equal those of the request; a subsequent GET by that id
(by the creating user) returns the same values. -/
theorem createSubmission_validates_and_persists (st : SubmissionStore) (fields : FieldStore)
    (req : CreateSubmissionRequest) (user : User) (newID : String) (now : GoTime) :
    (bindCreateRequired req = false →
      createSubmission st req user newID now true =
        (st, .err 400 "invalid_request" "binding failed")) ∧
    (bindCreateRequired req = true → newID ≠ "" → storeGet st newID = none →
      createSubmission st req user newID now true =
        (st ++ [(newID, mkCreatedSubmission req user newID now)],
         .ok 201 (mkCreatedSubmission req user newID now)) ∧
      (mkCreatedSubmission req user newID now).id = newID ∧
      (mkCreatedSubmission req user newID now).id ≠ "" ∧
      (mkCreatedSubmission req user newID now).status = "submitted" ∧
      (mkCreatedSubmission req user newID now).user_id = user.id ∧
      (mkCreatedSubmission req user newID now).created_at = now ∧
      (mkCreatedSubmission req user newID now).updated_at = now ∧
      (mkCreatedSubmission req user newID now).growth_stage = req.growth_stage ∧
      (mkCreatedSubmission req user newID now).observer_name = req.observer_name ∧
      storeGet (st ++ [(newID, mkCreatedSubmission req user newID now)]) newID =
        some (mkCreatedSubmission req user newID now) ∧
      (req.field_id = "" →
        ∃ resp : SubmissionResponse,
          getSubmission (st ++ [(newID, mkCreatedSubmission req user newID now)]) fields
              newID user = .ok 200 resp ∧
          resp.growth_stage = req.growth_stage ∧
          resp.observer_name = req.observer_name)) := by
  constructor
  · intro h
    simp [createSubmission, h]
  · intro hb hne hget
    refine ⟨?_, rfl, hne, rfl, rfl, rfl, rfl, rfl, rfl, ?_, ?_⟩
    · simp [createSubmission, hb,
        storeSet_of_fresh st newID (mkCreatedSubmission req user newID now) hget]
    · exact storeGet_append_fresh st newID _ hget
    · intro hfid
      have hg := storeGet_append_fresh st newID (mkCreatedSubmission req user newID now) hget
      simp only [getSubmission, hg]
      have hperm : ¬(user.role ≠ "admin" ∧
          (mkCreatedSubmission req user newID now).user_id ≠ user.id) :=
        fun hc => hc.2 rfl
      rw [if_neg hperm]
      have hfld : ¬((mkCreatedSubmission req user newID now).field_id ≠ "others" ∧
          (mkCreatedSubmission req user newID now).field_id ≠ "") := by
        intro hc
        exact hc.2 (by simp [mkCreatedSubmission, hfid])
      rw [if_neg hfld]
      by_cases hofn : (mkCreatedSubmission req user newID now).other_field_name ≠ ""
      · rw [if_pos hofn]
        exact ⟨_, rfl, rfl, rfl⟩
      · rw [if_neg hofn]
        exact ⟨_, rfl, rfl, rfl⟩

/-- Witness for C5: a concrete valid create request stores the document
under the generated id, answers 201 with status `"submitted"`, and a
GET by the creating user returns the same growth stage and observer. -/
theorem createSubmission_validates_and_persists_witness :
    createSubmission [] sampleCreateRequest sampleUser "uuid-1" sampleNow true =
      ([] ++ [("uuid-1", mkCreatedSubmission sampleCreateRequest sampleUser "uuid-1" sampleNow)],
       .ok 201 (mkCreatedSubmission sampleCreateRequest sampleUser "uuid-1" sampleNow)) ∧
    (mkCreatedSubmission sampleCreateRequest sampleUser "uuid-1" sampleNow).status =
      "submitted" ∧
    ∃ resp : SubmissionResponse,
      getSubmission
          ([] ++ [("uuid-1", mkCreatedSubmission sampleCreateRequest sampleUser "uuid-1"
            sampleNow)]) [] "uuid-1" sampleUser = .ok 200 resp ∧
      resp.growth_stage = sampleCreateRequest.growth_stage ∧
      resp.observer_name = sampleCreateRequest.observer_name := by
  obtain ⟨hrun, _, _, hstatus, _, _, _, _, _, _, hresp⟩ :=
    (createSubmission_validates_and_persists [] [] sampleCreateRequest sampleUser "uuid-1"
      sampleNow).2 (by decide) (by decide) rfl
  exact ⟨hrun, hstatus, hresp rfl⟩

/-- C6: for every submission and every requester whose role is not
admin and whose user id differs from the submission's owning user id,
the read, update, and delete handlers always return the 403 forbidden
error (and leave the store untouched), regardless of the update payload
and of the oracles. -/
theorem nonOwner_forbidden (st : SubmissionStore) (fields : FieldStore) (submissionID : String)
    (sub : Submission) (user : User) (req : UpdateSubmissionRequest) (now : GoTime)
    (storeOk : Bool)
    (hget : storeGet st submissionID = some sub)
    (hrole : user.role ≠ "admin") (howner : sub.user_id ≠ user.id) :
    getSubmission st fields submissionID user = .err 403 "forbidden" "Access denied" ∧
    updateSubmissionHandler st submissionID user req now storeOk =
      (st, .err 403 "forbidden" "Access denied") ∧
    deleteSubmission st submissionID user storeOk =
      (st, .err 403 "forbidden" "Access denied") := by
  refine ⟨?_, ?_, ?_⟩
  · simp only [getSubmission, hget]
    rw [if_pos ⟨hrole, howner⟩]
  · simp only [updateSubmissionHandler, hget]
    rw [if_pos ⟨hrole, howner⟩]
  · simp only [deleteSubmission, hget]
    rw [if_pos ⟨hrole, howner⟩]

/-- Witness for C6: a non-admin non-owner gets 403 from all three
handlers on a concrete store. -/
theorem nonOwner_forbidden_witness :
    getSubmission [("s1", sampleSubmission)] [] "s1" otherUser =
      .err 403 "forbidden" "Access denied" ∧
    updateSubmissionHandler [("s1", sampleSubmission)] "s1" otherUser emptyUpdateRequest
        sampleNow true = ([("s1", sampleSubmission)], .err 403 "forbidden" "Access denied") ∧
    deleteSubmission [("s1", sampleSubmission)] "s1" otherUser true =
      ([("s1", sampleSubmission)], .err 403 "forbidden" "Access denied") :=
  nonOwner_forbidden [("s1", sampleSubmission)] [] "s1" sampleSubmission otherUser
    emptyUpdateRequest sampleNow true rfl (by decide) (by decide)

/-- Counterexample to C7 as stated: an update payload carrying only
`other_field_name` — with `field_id` absent from the payload — still
changes the stored submission's `field_id` (to the sentinel
`"others"`), so not every field absent from the payload is left
unchanged. -/
theorem updateFrame_counterexample :
    otherNameOnlyRequest.field_id = none ∧
    (applyUpdateRequest sampleSubmission otherNameOnlyRequest sampleNow).field_id ≠
      sampleSubmission.field_id := by
  exact ⟨rfl, by decide⟩

/-- C7 (amended): for every authorized update of an existing
submission, `Update` applies exactly the fields present in the partial
payload — every field absent from the payload is left unchanged, except
that `field_id` is overwritten with the sentinel `"others"` whenever
`other_field_name` is present in the payload — always refreshes
updated-at, never touches id/user-id/created-at, and persists exactly
this transformation. -/
theorem updateApplies_only_present_fields (s : Submission) (req : UpdateSubmissionRequest)
    (now : GoTime) :
    (applyUpdateRequest s req now).updated_at = now ∧
    (applyUpdateRequest s req now).id = s.id ∧
    (applyUpdateRequest s req now).user_id = s.user_id ∧
    (applyUpdateRequest s req now).created_at = s.created_at ∧
    (req.date = none → (applyUpdateRequest s req now).date = s.date) ∧
    (∀ v, req.date = some v → (applyUpdateRequest s req now).date = v) ∧
    (req.growth_stage = none →
      (applyUpdateRequest s req now).growth_stage = s.growth_stage) ∧
    (∀ v, req.growth_stage = some v → (applyUpdateRequest s req now).growth_stage = v) ∧
    (req.plant_conditions = none →
      (applyUpdateRequest s req now).plant_conditions = s.plant_conditions) ∧
    (∀ v, req.plant_conditions = some v →
      (applyUpdateRequest s req now).plant_conditions = v) ∧
    (req.trait_measurements = none →
      (applyUpdateRequest s req now).trait_measurements = s.trait_measurements) ∧
    (∀ v, req.trait_measurements = some v →
      (applyUpdateRequest s req now).trait_measurements = v) ∧
    (req.coordinates = none →
      (applyUpdateRequest s req now).coordinates = s.coordinates) ∧
    (∀ v, req.coordinates = some v → (applyUpdateRequest s req now).coordinates = v) ∧
    (req.notes = none → (applyUpdateRequest s req now).notes = s.notes) ∧
    (∀ v, req.notes = some v → (applyUpdateRequest s req now).notes = v) ∧
    (req.images = none → (applyUpdateRequest s req now).images = s.images) ∧
    (∀ v, req.images = some v → (applyUpdateRequest s req now).images = v) ∧
    (req.videos = none → (applyUpdateRequest s req now).videos = s.videos) ∧
    (∀ v, req.videos = some v → (applyUpdateRequest s req now).videos = v) ∧
    (req.audio = none → (applyUpdateRequest s req now).audio = s.audio) ∧
    (∀ v, req.audio = some v → (applyUpdateRequest s req now).audio = v) ∧
    (req.status = none → (applyUpdateRequest s req now).status = s.status) ∧
    (∀ v, req.status = some v → (applyUpdateRequest s req now).status = v) ∧
    (req.other_field_name = none →
      (applyUpdateRequest s req now).other_field_name = s.other_field_name) ∧
    (∀ v, req.other_field_name = some v →
      (applyUpdateRequest s req now).other_field_name = v ∧
      (applyUpdateRequest s req now).field_id = "others") ∧
    (req.other_field_name = none → req.field_id = none →
      (applyUpdateRequest s req now).field_id = s.field_id) ∧
    (req.other_field_name = none → ∀ v, req.field_id = some v →
      (applyUpdateRequest s req now).field_id = v) ∧
    (∀ (st : SubmissionStore) (docID : String) (user : User) (sub : Submission),
      storeGet st docID = some sub → (user.role = "admin" ∨ sub.user_id = user.id) →
      updateSubmissionHandler st docID user req now true =
        (storeSet st docID (applyUpdateRequest sub req now),
         .ok 200 (applyUpdateRequest sub req now))) := by
  refine ⟨rfl, rfl, rfl, rfl,
    fun h => by simp [applyUpdateRequest, h],
    fun v h => by simp [applyUpdateRequest, h],
    fun h => by simp [applyUpdateRequest, h],
    fun v h => by simp [applyUpdateRequest, h],
    fun h => by simp [applyUpdateRequest, h],
    fun v h => by simp [applyUpdateRequest, h],
    fun h => by simp [applyUpdateRequest, h],
    fun v h => by simp [applyUpdateRequest, h],
    fun h => by simp [applyUpdateRequest, h],
    fun v h => by simp [applyUpdateRequest, h],
    fun h => by simp [applyUpdateRequest, h],
    fun v h => by simp [applyUpdateRequest, h],
    fun h => by simp [applyUpdateRequest, h],
    fun v h => by simp [applyUpdateRequest, h],
    fun h => by simp [applyUpdateRequest, h],
    fun v h => by simp [applyUpdateRequest, h],
    fun h => by simp [applyUpdateRequest, h],
    fun v h => by simp [applyUpdateRequest, h],
    fun h => by simp [applyUpdateRequest, h],
    fun v h => by simp [applyUpdateRequest, h],
    fun h => by simp [applyUpdateRequest, h],
    fun v h => by simp [applyUpdateRequest, h, Option.getD],
    fun h1 h2 => by simp [applyUpdateRequest, h1, h2],
    fun h1 v h2 => by simp [applyUpdateRequest, h1, h2],
    ?_⟩
  intro st docID user sub hget hauth
  have hperm : ¬(user.role ≠ "admin" ∧ sub.user_id ≠ user.id) := by
    rcases hauth with h | h
    · exact fun hc => hc.1 h
    · exact fun hc => hc.2 h
  simp only [updateSubmissionHandler, hget]
  rw [if_neg hperm]
  simp

/-- Witness for C7: an update carrying only `notes` changes the notes
and the updated-at stamp while growth stage and field id keep their
stored values. -/
theorem updateApplies_only_present_fields_witness :
    (applyUpdateRequest sampleSubmission notesOnlyRequest sampleNow).notes = "updated note" ∧
    (applyUpdateRequest sampleSubmission notesOnlyRequest sampleNow).growth_stage =
      sampleSubmission.growth_stage ∧
    (applyUpdateRequest sampleSubmission notesOnlyRequest sampleNow).field_id =
      sampleSubmission.field_id ∧
    (applyUpdateRequest sampleSubmission notesOnlyRequest sampleNow).updated_at =
      sampleNow := by
  obtain ⟨h1, h2, h3, h4, h5, h6, h7, h8, h9, h10, h11, h12, h13, h14, h15, h16, h17, h18,
    h19, h20, h21, h22, h23, h24, h25, h26, h27, h28, h29⟩ :=
    updateApplies_only_present_fields sampleSubmission notesOnlyRequest sampleNow
  exact ⟨h16 "updated note" rfl, h7 rfl, h27 rfl rfl, h1⟩

/-- Counterexample to C8 as stated: numeric fields are not rendered
with full decimal precision — two submissions holding distinct
float64-representable culm lengths (1 and 1 + 2⁻²¹) produce identical
rows, because Go `%f` rounds to six decimal places. -/
theorem rowCodec_precision_counterexample :
    submissionToRow sampleSubmission "Field A" =
      submissionToRow sampleSubmissionNudged "Field A" ∧
    sampleSubmission.trait_measurements.culm_length ≠
      sampleSubmissionNudged.trait_measurements.culm_length := by
  have h1 : roundHalfEven (|(1 : ℚ)| * 1000000) = 1000000 := by
    rw [show |(1 : ℚ)| * 1000000 = ((1000000 : ℤ) : ℚ) by norm_num]
    exact roundHalfEven_eq_of_floor _ 1000000 le_rfl (by norm_num)
  have h2 : roundHalfEven (|(1 + 1 / 2 ^ 21 : ℚ)| * 1000000) = 1000000 := by
    rw [show |(1 + 1 / 2 ^ 21 : ℚ)| * 1000000 = ((1000000 : ℤ) : ℚ) + 15625 / 32768 by
      rw [abs_of_nonneg (by norm_num : (0 : ℚ) ≤ 1 + 1 / 2 ^ 21)]
      norm_num]
    exact roundHalfEven_eq_of_floor _ 1000000 (by norm_num) (by norm_num)
  have hcell : goFormatFloat (1 : ℚ) = goFormatFloat (1 + 1 / 2 ^ 21 : ℚ) := by
    simp only [goFormatFloat, h1, h2]
    rw [if_neg (by norm_num : ¬(1 : ℚ) < 0), if_neg (by norm_num : ¬(1 + 1 / 2 ^ 21 : ℚ) < 0)]
  constructor
  · simp only [submissionToRow, sampleSubmissionNudged, sampleSubmission, sampleTraits]
    simp [hcell]
  · simp only [sampleSubmission, sampleSubmissionNudged, sampleTraits]
    norm_num

/-- C8 (amended): for every Submission the row codec renders dates in
the fixed RFC3339 timestamp format, booleans as the literal strings
"true"/"false", float fields in six-decimal fixed-point notation (the
rendering depends only on the value rounded to the nearest millionth —
not full precision), integer counts in plain decimal, multi-select maps
as a comma-space-joined list of exactly the keys whose value is true
(in map iteration order), and media URL lists as comma-joined strings
with no escaping. -/
theorem rowCodec_formatting (s : Submission) (fieldName : String) :
    (submissionToRow s fieldName)[4]? = some (formatRFC3339 s.date) ∧
    (submissionToRow s fieldName)[9]? = some (formatRFC3339 s.created_at) ∧
    (submissionToRow s fieldName)[10]? = some (formatRFC3339 s.updated_at) ∧
    (submissionToRow s fieldName)[17]? = some (goFormatBool s.plant_conditions.healthy) ∧
    (∀ b, goFormatBool b = "true" ∨ goFormatBool b = "false") ∧
    (goFormatBool s.plant_conditions.healthy = "true" ↔
      s.plant_conditions.healthy = true) ∧
    (submissionToRow s fieldName)[13]? =
      some (goFormatFloat s.trait_measurements.culm_length) ∧
    (submissionToRow s fieldName)[15]? =
      some (goFormatInt s.trait_measurements.panicles_per_hill) ∧
    (∀ q1 q2 : ℚ, 0 ≤ q1 → 0 ≤ q2 →
      roundHalfEven (q1 * 1000000) = roundHalfEven (q2 * 1000000) →
      goFormatFloat q1 = goFormatFloat q2) ∧
    (submissionToRow s fieldName)[20]? = some (mapToString s.plant_conditions.pest_details) ∧
    (∀ m : List (String × Bool), mapToString m =
      String.intercalate ", " ((m.filter fun kv => kv.2).map fun kv => kv.1)) ∧
    (submissionToRow s fieldName)[36]? = some (String.intercalate "," s.images) := by
  refine ⟨rfl, rfl, rfl, rfl, ?_, ?_, rfl, rfl, ?_, rfl, fun m => rfl, rfl⟩
  · intro b
    cases b
    · exact Or.inr rfl
    · exact Or.inl rfl
  · cases h : s.plant_conditions.healthy <;> simp [goFormatBool, h]
  · intro q1 q2 h1 h2 h
    simp only [goFormatFloat]
    rw [abs_of_nonneg h1, abs_of_nonneg h2, h, if_neg (not_lt.mpr h1), if_neg (not_lt.mpr h2)]

/-- Witness for C8: the date cell of a concrete row, and two distinct
rationals with the same millionth-rounding formatted identically. -/
theorem rowCodec_formatting_witness :
    (submissionToRow sampleSubmission "Field A")[4]? =
      some (formatRFC3339 sampleSubmission.date) ∧
    goFormatFloat (1 / 4) = goFormatFloat (1 / 4 + 1 / 2 ^ 21) := by
  have h := rowCodec_formatting sampleSubmission "Field A"
  have hra : roundHalfEven ((1 / 4 : ℚ) * 1000000) = 250000 := by
    rw [show (1 / 4 : ℚ) * 1000000 = ((250000 : ℤ) : ℚ) by norm_num]
    exact roundHalfEven_eq_of_floor _ 250000 le_rfl (by norm_num)
  have hrb : roundHalfEven ((1 / 4 + 1 / 2 ^ 21 : ℚ) * 1000000) = 250000 := by
    rw [show (1 / 4 + 1 / 2 ^ 21 : ℚ) * 1000000 = ((250000 : ℤ) : ℚ) + 15625 / 32768 by
      norm_num]
    exact roundHalfEven_eq_of_floor _ 250000 (by norm_num) (by norm_num)
  exact ⟨h.1, h.2.2.2.2.2.2.2.2.1 (1 / 4) (1 / 4 + 1 / 2 ^ 21) (by norm_num) (by norm_num)
    (hra.trans hrb.symm)⟩

/-- C9: an upload request whose submission_id form value is non-empty
and shorter than 5 characters drives the temp-prefix check at
`submissionID[:5]` past the end of the string — with the other request
checks passing, the handler panics instead of returning an error
response; for an empty submission_id or one of length at least 5 the
handler never panics, whatever the other inputs. -/
theorem uploadMedia_short_id_panics (sid fileType filename : String)
    (fileOk copyOk closeOk attachOk : Bool) :
    (sid ≠ "" → sid.length < 5 →
      uploadMedia sid "image" "a.jpg" true true true true = .runtimePanic) ∧
    (sid = "" ∨ 5 ≤ sid.length →
      uploadMedia sid fileType filename fileOk copyOk closeOk attachOk ≠ .runtimePanic) := by
  constructor
  · intro h1 h2
    unfold uploadMedia
    rw [if_neg h1,
      if_neg (by decide : ¬(("image" : String) = "")),
      if_neg (by decide : ¬¬((true : Bool) = true)),
      if_neg (by decide : ¬¬(validateMediaType "a.jpg" "image" = true)),
      if_neg (by decide : ¬¬((true : Bool) = true)),
      if_neg (by decide : ¬¬((true : Bool) = true)),
      if_pos h2]
  · intro h
    rcases h with h | h
    · subst h
      simp [uploadMedia]
    · unfold uploadMedia
      split_ifs <;> first | decide | omega

/-- Witness for C9: the four-character id `"abcd"` panics the handler;
the five-character id `"temp_"` and the empty id do not. -/
theorem uploadMedia_short_id_panics_witness :
    uploadMedia "abcd" "image" "a.jpg" true true true true = .runtimePanic ∧
    uploadMedia "temp_" "image" "a.jpg" true true true true ≠ .runtimePanic ∧
    uploadMedia "" "image" "a.jpg" true true true true ≠ .runtimePanic := by
  refine ⟨?_, ?_, ?_⟩
  · exact (uploadMedia_short_id_panics "abcd" "image" "a.jpg" true true true true).1
      (by decide) (by decide)
  · exact (uploadMedia_short_id_panics "temp_" "image" "a.jpg" true true true true).2
      (Or.inr (by decide))
  · exact (uploadMedia_short_id_panics "" "image" "a.jpg" true true true true).2
      (Or.inl rfl)

/-- C10: for every update payload containing `other_field_name`, the
stored submission's `field_id` is set to the literal sentinel
`"others"`, whatever `field_id` value the same payload carries; the
payload's `field_id` is applied only when `other_field_name` is
absent. -/
theorem otherFieldName_forces_sentinel (s : Submission) (req : UpdateSubmissionRequest)
    (now : GoTime) :
    (∀ v, req.other_field_name = some v →
      (applyUpdateRequest s req now).field_id = "others") ∧
    (req.other_field_name = none →
      (applyUpdateRequest s req now).field_id = req.field_id.getD s.field_id) := by
  constructor
  · intro v h
    simp [applyUpdateRequest, h]
  · intro h
    simp [applyUpdateRequest, h]

/-- Witness for C10: a payload carrying both `other_field_name` and
`field_id := "f9"` still lands on `"others"`; a payload with neither
leaves the stored `field_id`. -/
theorem otherFieldName_forces_sentinel_witness :
    (applyUpdateRequest sampleSubmission bothFieldRequest sampleNow).field_id = "others" ∧
    (applyUpdateRequest sampleSubmission emptyUpdateRequest sampleNow).field_id =
      emptyUpdateRequest.field_id.getD sampleSubmission.field_id :=
  ⟨(otherFieldName_forces_sentinel sampleSubmission bothFieldRequest sampleNow).1
      "My Plot" rfl,
   (otherFieldName_forces_sentinel sampleSubmission emptyUpdateRequest sampleNow).2 rfl⟩

end RiceMonitor
